import Mathlib

/-!
Verification of the `cairo-lang-runnable` plugin
(`src/crates/cairo-lang-runnable/src/plugin.rs`).

The development shallowly embeds the two components of the plugin:

* `Runnable.generateCode` — the `MacroPlugin::generate_code` implementation of
  `RunnablePlugin`: it wraps a `#[runnable]` free function in a flat-buffer
  calling-convention wrapper, emitting generated text together with
  source-position mappings.
* `Runnable.checkFreeFunction` / `Runnable.analyzerDiagnostics` — the
  `AnalyzerPlugin::diagnostics` implementation of `RawRunnableAnalyzer`: it
  checks every `#[runnable_raw]` free function of a module against the fixed
  two-parameter signature contract.

Syntax nodes and semantic objects owned by the host compiler (stable pointers,
semantic type ids, the patch builder) are modelled by explicit data; the
control flow and all emitted texts, anchors and messages are translated
directly from the source.
-/

namespace Runnable

/-- A source span / stable syntax pointer of the host compiler, modelled as an
opaque identifier.  The plugin only ever passes these through as diagnostic
anchors and mapping origins. -/
structure Span where
  id : Nat
deriving DecidableEq

/-- Diagnostic severity; `PluginDiagnostic::error` always uses `Error`. -/
inductive Severity where
  | error
  | warning
deriving DecidableEq

/-- A plugin diagnostic: an anchor, a message and a severity
(`cairo_lang_defs::plugin::PluginDiagnostic`). -/
structure PluginDiagnostic where
  stablePtr : Span
  message : String
  severity : Severity
deriving DecidableEq

/-- Mirrors `PluginDiagnostic::error(ptr, message)`. -/
def PluginDiagnostic.error (ptr : Span) (message : String) : PluginDiagnostic :=
  ⟨ptr, message, Severity.error⟩

/-- Modelled from the spec: a leaf of the host's `RewriteNode` tree as it
reaches the patch builder — a run of generated text that either carries a
source mapping back to an original node (`RewriteNode::mapped`,
`RewriteNode::from_ast`) or carries none (`RewriteNode::Text`,
`PatchBuilder::add_str`). -/
structure Piece where
  text : String
  origin : Option Span
deriving DecidableEq

/-- Modelled from the spec: the host's `PatchBuilder` accumulates the emitted
pieces in order. -/
structure PatchBuilder where
  pieces : List Piece
deriving DecidableEq

/-- Modelled from the spec: `PatchBuilder::new` starts with no content. -/
def PatchBuilder.new : PatchBuilder := ⟨[]⟩

/-- Modelled from the spec: `PatchBuilder::add_modified` appends one piece. -/
def PatchBuilder.addModified (b : PatchBuilder) (p : Piece) : PatchBuilder :=
  ⟨b.pieces ++ [p]⟩

/-- Modelled from the spec: `PatchBuilder::add_str` appends plain text with no
original-source mapping. -/
def PatchBuilder.addStr (b : PatchBuilder) (s : String) : PatchBuilder :=
  b.addModified ⟨s, none⟩

/-- One (generated-range → original-range) position mapping of a generated
unit: the generated interval is given by a start offset and a length. -/
structure CodeMapping where
  genStart : Nat
  genLen : Nat
  origin : Span
deriving DecidableEq

/-- Modelled from the spec: `PatchBuilder::build` concatenates the pieces into
the generated text and records, in order, one mapping per mapped piece,
pointing its generated interval at the original span. -/
def buildFrom (off : Nat) : List Piece → String × List CodeMapping
  | [] => ("", [])
  | p :: ps =>
    let rest := buildFrom (off + p.text.length) ps
    (p.text ++ rest.1,
      (match p.origin with
        | some sp => [CodeMapping.mk off p.text.length sp]
        | none => []) ++ rest.2)

/-- Modelled from the spec: `PatchBuilder::build`. -/
def PatchBuilder.build (b : PatchBuilder) : String × List CodeMapping :=
  buildFrom 0 b.pieces

/-- The generated unit (`cairo_lang_defs::plugin::PluginGeneratedFile`);
`aux_data` is always `None` in this plugin and is omitted. -/
structure PluginGeneratedFile where
  name : String
  content : String
  codeMappings : List CodeMapping
deriving DecidableEq

/-- The result of `generate_code`
(`cairo_lang_defs::plugin::PluginResult`). -/
structure PluginResult where
  code : Option PluginGeneratedFile
  diagnostics : List PluginDiagnostic
  removeOriginalItem : Bool
deriving DecidableEq

/-- Mirrors `PluginResult::default()`. -/
def PluginResult.empty : PluginResult :=
  { code := none, diagnostics := [], removeOriginalItem := false }

/-- The syntax-level data of a free-function declaration that
`RunnablePlugin::generate_code` reads: its name (text and node span), its
attribute names, its generic-parameter list (names and the span of the list
node), its parameters (the generator uses only each parameter's node, as a
mapping target, and its zero-based position), and the optional return-type
clause node. -/
structure FreeFunctionDecl where
  name : String
  nameSpan : Span
  attrs : List String
  generics : List String
  genericsSpan : Span
  params : List Span
  retTyClause : Option Span
deriving DecidableEq

/-- A module item as matched by `generate_code`: a free function, or any other
item shape (which yields `PluginResult::default()`). -/
inductive ModuleItem where
  | freeFunction (item : FreeFunctionDecl)
  | other
deriving DecidableEq

/-- `RUNNABLE_ATTR` from the source. -/
def RUNNABLE_ATTR : String := "runnable"

/-- `RUNNABLE_RAW_ATTR` from the source. -/
def RUNNABLE_RAW_ATTR : String := "runnable_raw"

/-- `RUNNABLE_PREFIX` from the source. -/
def RUNNABLE_PREFIX_STR : String := "__runnable_wrapper__"

/-- The `IMPLICIT_PRECEDENCE` constant: the fixed, ordered list of the eight
built-in implicit types emitted on every generated wrapper. -/
def IMPLICIT_PRECEDENCE : List String :=
  ["core::pedersen::Pedersen",
   "core::RangeCheck",
   "core::integer::Bitwise",
   "core::ec::EcOp",
   "core::poseidon::Poseidon",
   "core::circuit::RangeCheck96",
   "core::circuit::AddMod",
   "core::circuit::MulMod"]

/-- Modelled from the spec: the attribute name constant
`IMPLICIT_PRECEDENCE_ATTR` imported from the host syntax crate
(`cairo_lang_syntax::attribute::consts`), which is not part of the sources
under study; its value is the name of the implicit-precedence attribute. -/
def IMPLICIT_PRECEDENCE_ATTR : String := "implicit_precedence"

/-- Text of the `#[implicit_precedence(...)]` attribute emitted on every
wrapper: `format!("#[{IMPLICIT_PRECEDENCE_ATTR}({})]", IMPLICIT_PRECEDENCE.iter().join(", "))`. -/
def implicitPrecedenceAttrText : String :=
  "#[" ++ IMPLICIT_PRECEDENCE_ATTR ++ "(" ++ String.intercalate ", " IMPLICIT_PRECEDENCE ++ ")]"

/-- The literal text of the wrapper header before the interpolated
`$implicit_precedence$` placeholder (the `formatdoc!` block opens with a blank
line). -/
def headerTextA : String := "\n"

/-- The literal header text between `$implicit_precedence$` and the
interpolated `$function_name$`. -/
def headerTextB : String := "\n#[" ++ RUNNABLE_RAW_ATTR ++ "]\nfn " ++ RUNNABLE_PREFIX_STR

/-- The literal header text after `$function_name$`: the wrapper's fixed
two-parameter signature and opening brace (the `formatdoc!` block ends with an
escaped newline followed by the literal end of line). -/
def headerTextC : String := "(mut input: Span<felt252>, ref output: Array<felt252>) \x7b\n\n"

/-- The per-parameter deserialization statement for parameter index `i`
(the loop body at `plugin.rs:85-93`). -/
def deserStmtText (i : Nat) : String :=
  "    let __param" ++ RUNNABLE_PREFIX_STR ++ toString i
    ++ " = Serde::deserialize(ref input).expect(\x27Failed to deserialize param #"
    ++ toString i ++ "\x27);\n"

/-- The input-emptiness assertion statement (`plugin.rs:94-96`). -/
def assertText : String :=
  "    assert(core::array::SpanTrait::is_empty(input), \x27Input too long for params.\x27);\n"

/-- The call statement text before the interpolated `$function_name$`. -/
def callHeadText : String := "    let __result = @"

/-- The call statement text after `$function_name$`. -/
def callOpenText : String := "(\n"

/-- The per-parameter call-argument line for parameter index `i`
(the loop body at `plugin.rs:101-106`). -/
def argText (i : Nat) : String :=
  "        __param" ++ RUNNABLE_PREFIX_STR ++ toString i ++ ",\n"

/-- The text closing the call statement (`plugin.rs:107`). -/
def callCloseText : String := "    );\n"

/-- The result-serialization statement (`plugin.rs:108`). -/
def serializeText : String := "    Serde::serialize(__result, ref output);\n"

/-- The closing brace of the wrapper (`plugin.rs:115`). -/
def rbraceText : String := "\x7d\n"

/-- The first emission loop (`plugin.rs:85-93`): for each parameter, in
declaration order and with its zero-based index, add one deserialization
statement mapped to that parameter's node. -/
def addDeserStmts (b : PatchBuilder) (params : List Span) : PatchBuilder :=
  params.enum.foldl
    (fun acc pi => acc.addModified ⟨deserStmtText pi.1, some pi.2⟩) b

/-- The second emission loop (`plugin.rs:101-106`): for each parameter, in
declaration order, add one call-argument line mapped to that parameter's
node. -/
def addCallArgs (b : PatchBuilder) (params : List Span) : PatchBuilder :=
  params.enum.foldl
    (fun acc pi => acc.addModified ⟨argText pi.1, some pi.2⟩) b

/-- The full builder content of one generated unit, mirroring the sequence of
`builder.add_modified` / `builder.add_str` calls in
`RunnablePlugin::generate_code` (`plugin.rs:68-115`).  The interpolated
`$implicit_precedence$` placeholder is a `RewriteNode::Text` (no mapping) and
each `$function_name$` placeholder is a `RewriteNode::from_ast(&name)`
(mapped to the name node). -/
def generatedPieces (item : FreeFunctionDecl) : PatchBuilder :=
  let builder := PatchBuilder.new
  let builder := builder.addModified ⟨headerTextA, none⟩
  let builder := builder.addModified ⟨implicitPrecedenceAttrText, none⟩
  let builder := builder.addModified ⟨headerTextB, none⟩
  let builder := builder.addModified ⟨item.name, some item.nameSpan⟩
  let builder := builder.addModified ⟨headerTextC, none⟩
  let builder := addDeserStmts builder item.params
  let builder := builder.addStr assertText
  let builder := builder.addModified ⟨callHeadText, none⟩
  let builder := builder.addModified ⟨item.name, some item.nameSpan⟩
  let builder := builder.addModified ⟨callOpenText, none⟩
  let builder := addCallArgs builder item.params
  let builder := builder.addStr callCloseText
  let serializeNode : Piece :=
    match item.retTyClause with
    | some clause => ⟨serializeText, some clause⟩
    | none => ⟨serializeText, none⟩
  let builder := builder.addModified serializeNode
  let builder := builder.addStr rbraceText
  builder

/-- `RunnablePlugin::generate_code` (`plugin.rs:45-127`): a no-op for items
that are not free functions or lack the `#[runnable]` attribute; a hard stop
with one diagnostic for a non-empty generic-parameter list; otherwise a
generated unit named `"runnable"` built from `generatedPieces`, with no
diagnostics and without removing the original item. -/
def generateCode (item_ast : ModuleItem) : PluginResult :=
  match item_ast with
  | ModuleItem.other => PluginResult.empty
  | ModuleItem.freeFunction item =>
    if item.attrs.contains RUNNABLE_ATTR = false then
      PluginResult.empty
    else if item.generics.isEmpty = false then
      { code := none,
        diagnostics :=
          [PluginDiagnostic.error item.genericsSpan
            "Runnable functions cannot have generic params."],
        removeOriginalItem := false }
    else
      let built := (generatedPieces item).build
      { code := some
          { name := "runnable",
            content := built.1,
            codeMappings := built.2 },
        diagnostics := [],
        removeOriginalItem := false }

/-- Modelled from the spec: semantic type identifiers of the host's type
database, restricted to the distinctions the analyzer makes — the unit type,
`felt252`, `Span<_>`, `Array<_>`, and everything else. -/
inductive Ty where
  | unit
  | felt252
  | span (arg : Ty)
  | array (arg : Ty)
  | other (id : Nat)
deriving DecidableEq

/-- `corelib::unit_ty`. -/
def unitTy : Ty := Ty.unit

/-- `corelib::get_core_ty_by_name(db, "Span", [felt252])`. -/
def spanFelt252Ty : Ty := Ty.span Ty.felt252

/-- `corelib::core_array_felt252_ty`. -/
def arrayFelt252Ty : Ty := Ty.array Ty.felt252

/-- `cairo_lang_semantic::Mutability`. -/
inductive Mutability where
  | Immutable
  | Mutable
  | Reference
deriving DecidableEq

/-- A resolved parameter of a candidate signature: its semantic type, its
mutability and its stable pointer (the diagnostic anchor). -/
structure SemParam where
  ty : Ty
  mutability : Mutability
  stablePtr : Span
deriving DecidableEq

/-- A resolved function signature as the analyzer reads it: return type,
parameters, and the spans of the return-type node and the parameter-list node
reached through `signature.stable_ptr.lookup(..)`. -/
structure Signature where
  returnType : Ty
  params : List SemParam
  retTySpan : Span
  paramsSpan : Span
deriving DecidableEq

/-- One free function of a module as seen by the analyzer: its attribute names
and its resolved signature (`none` when `free_function_signature` fails). -/
structure FreeFunctionEntry where
  attrs : List String
  signature : Option Signature
deriving DecidableEq

/-- A module as seen by the analyzer: the result of
`db.module_free_functions(module_id)` (`none` when the query fails). -/
structure ModuleSem where
  freeFunctions : Option (List FreeFunctionEntry)
deriving DecidableEq

/-- Message of the return-type diagnostic (`plugin.rs:159`). -/
def retMsg : String :=
  "Invalid return type for `#[runnable_raw]` function, expected `()`."

/-- Message of the parameter-count diagnostic (`plugin.rs:166`). -/
def countMsg : String :=
  "Invalid number of params for `#[runnable_raw]` function, expected 2."

/-- Message of the first-parameter type diagnostic (`plugin.rs:178`). -/
def ty1Msg : String :=
  "Invalid first param type for `#[runnable_raw]` function, expected `Span<felt252>`."

/-- Message of the first-parameter mutability diagnostic (`plugin.rs:186`). -/
def mut1Msg : String :=
  "Invalid first param mutability for `#[runnable_raw]` function, got unexpected `ref`."

/-- Message of the second-parameter type diagnostic (`plugin.rs:194`). -/
def ty2Msg : String :=
  "Invalid second param type for `#[runnable_raw]` function, expected `Array<felt252>`."

/-- Message of the second-parameter mutability diagnostic (`plugin.rs:202`). -/
def mut2Msg : String :=
  "Invalid second param mutability for `#[runnable_raw]` function, expected `ref`."

/-- Recognises the `InvalidParamCount` diagnostic kind by its (unique)
message. -/
def isParamCountDiag (d : PluginDiagnostic) : Bool :=
  d.message == countMsg

/-- Recognises the four per-parameter type/mutability diagnostic kinds by
their (unique) messages. -/
def isParamTypeOrMutDiag (d : PluginDiagnostic) : Bool :=
  d.message == ty1Msg || d.message == mut1Msg || d.message == ty2Msg || d.message == mut2Msg

/-- Recognises the `InvalidReturnType` diagnostic kind by its (unique)
message. -/
def isReturnTypeDiag (d : PluginDiagnostic) : Bool :=
  d.message == retMsg

/-- Recognises the first-parameter `InvalidParamMutability` diagnostic by its
(unique) message. -/
def isFirstParamMutDiag (d : PluginDiagnostic) : Bool :=
  d.message == mut1Msg

/-- The per-function body of the loop in `RawRunnableAnalyzer::diagnostics`
(`plugin.rs:149-207`): skip functions without `#[runnable_raw]` and functions
whose signature did not resolve; check the return type; on a parameter count
other than two, report it and stop checking parameters; otherwise run the four
independent type/mutability checks on the two parameters. -/
def checkFreeFunction (f : FreeFunctionEntry) : List PluginDiagnostic :=
  if f.attrs.contains RUNNABLE_RAW_ATTR = false then []
  else
    match f.signature with
    | none => []
    | some signature =>
      let retDiags : List PluginDiagnostic :=
        if signature.returnType ≠ unitTy then
          [PluginDiagnostic.error signature.retTySpan retMsg]
        else []
      match signature.params with
      | [input, output] =>
        retDiags
          ++ (if input.ty ≠ spanFelt252Ty then
                [PluginDiagnostic.error input.stablePtr ty1Msg] else [])
          ++ (if input.mutability = Mutability.Reference then
                [PluginDiagnostic.error input.stablePtr mut1Msg] else [])
          ++ (if output.ty ≠ arrayFelt252Ty then
                [PluginDiagnostic.error output.stablePtr ty2Msg] else [])
          ++ (if output.mutability ≠ Mutability.Reference then
                [PluginDiagnostic.error output.stablePtr mut2Msg] else [])
      | _ => retDiags ++ [PluginDiagnostic.error signature.paramsSpan countMsg]

/-- `RawRunnableAnalyzer::diagnostics` (`plugin.rs:143-209`): an empty result
when the free-function query fails, otherwise the concatenation, in order, of
the per-function diagnostics. -/
def analyzerDiagnostics (m : ModuleSem) : List PluginDiagnostic :=
  match m.freeFunctions with
  | none => []
  | some freeFunctions =>
    freeFunctions.foldl (fun acc f => acc ++ checkFreeFunction f) []

/-- Concatenation of a list of strings, used to describe the generated text
declaratively. -/
def concatStrs : List String → String
  | [] => ""
  | s :: rest => s ++ concatStrs rest

/-- The pieces of one generated unit, spelled out declaratively: the header
(attribute lines, wrapper name, fixed signature), one deserialization
statement per parameter in order, the emptiness assertion, the call with one
argument line per parameter in order, and the serialization statement.  The
structural theorems below prove that the builder sequence `generatedPieces`
produces exactly this list. -/
def piecesList (item : FreeFunctionDecl) : List Piece :=
  [⟨headerTextA, none⟩, ⟨implicitPrecedenceAttrText, none⟩, ⟨headerTextB, none⟩,
   ⟨item.name, some item.nameSpan⟩, ⟨headerTextC, none⟩]
  ++ item.params.enum.map (fun pi => ⟨deserStmtText pi.1, some pi.2⟩)
  ++ [⟨assertText, none⟩, ⟨callHeadText, none⟩,
      ⟨item.name, some item.nameSpan⟩, ⟨callOpenText, none⟩]
  ++ item.params.enum.map (fun pi => ⟨argText pi.1, some pi.2⟩)
  ++ [⟨callCloseText, none⟩, ⟨serializeText, item.retTyClause⟩, ⟨rbraceText, none⟩]

/-- Concrete attributed function `fn add(a: felt252, b: felt252) -> felt252`
used to instantiate the generator theorems. -/
def exampleAddFn : FreeFunctionDecl :=
  { name := "add", nameSpan := ⟨1⟩, attrs := ["runnable"], generics := [],
    genericsSpan := ⟨2⟩, params := [⟨3⟩, ⟨4⟩], retTyClause := some ⟨5⟩ }

/-- Concrete attributed function `fn bad<T>(x: T)` with a generic parameter. -/
def exampleGenericFn : FreeFunctionDecl :=
  { name := "bad", nameSpan := ⟨6⟩, attrs := ["runnable"], generics := ["T"],
    genericsSpan := ⟨7⟩, params := [⟨8⟩], retTyClause := none }

/-- Concrete three-parameter resolved signature. -/
def exampleSigThreeParams : Signature :=
  { returnType := Ty.unit,
    params := [⟨spanFelt252Ty, Mutability.Mutable, ⟨21⟩⟩,
               ⟨arrayFelt252Ty, Mutability.Reference, ⟨22⟩⟩,
               ⟨Ty.felt252, Mutability.Immutable, ⟨23⟩⟩],
    retTySpan := ⟨24⟩, paramsSpan := ⟨25⟩ }

/-- Concrete `#[runnable_raw]` candidate with three parameters. -/
def exampleEntryThreeParams : FreeFunctionEntry :=
  { attrs := ["runnable_raw"], signature := some exampleSigThreeParams }

/-- First parameter of `exampleSigBadFirst`: wrong type, passed by `ref`. -/
def exampleBadFirstInput : SemParam := ⟨Ty.felt252, Mutability.Reference, ⟨31⟩⟩

/-- Second parameter of `exampleSigBadFirst`: fully conforming. -/
def exampleBadFirstOutput : SemParam := ⟨arrayFelt252Ty, Mutability.Reference, ⟨32⟩⟩

/-- Concrete two-parameter signature whose first parameter has the wrong type
and is passed by `ref`, while everything else conforms. -/
def exampleSigBadFirst : Signature :=
  { returnType := Ty.unit,
    params := [exampleBadFirstInput, exampleBadFirstOutput],
    retTySpan := ⟨33⟩, paramsSpan := ⟨34⟩ }

/-- Concrete `#[runnable_raw]` candidate built on `exampleSigBadFirst`. -/
def exampleEntryBadFirst : FreeFunctionEntry :=
  { attrs := ["runnable_raw"], signature := some exampleSigBadFirst }

/-- First parameter of `exampleSigMutFirst`: correct type, declared `mut`
(locally mutable, passed by value), as in every generated wrapper. -/
def exampleMutFirstInput : SemParam := ⟨spanFelt252Ty, Mutability.Mutable, ⟨41⟩⟩

/-- Second parameter of `exampleSigMutFirst`: fully conforming. -/
def exampleMutFirstOutput : SemParam := ⟨arrayFelt252Ty, Mutability.Reference, ⟨42⟩⟩

/-- Concrete two-parameter signature whose first parameter is declared `mut`
but not passed by reference. -/
def exampleSigMutFirst : Signature :=
  { returnType := Ty.unit,
    params := [exampleMutFirstInput, exampleMutFirstOutput],
    retTySpan := ⟨43⟩, paramsSpan := ⟨44⟩ }

/-- Concrete `#[runnable_raw]` candidate built on `exampleSigMutFirst`. -/
def exampleEntryMutFirst : FreeFunctionEntry :=
  { attrs := ["runnable_raw"], signature := some exampleSigMutFirst }

/-- Concrete module whose free-function enumeration failed. -/
def exampleFailedModule : ModuleSem := { freeFunctions := none }

/-! ## General helper lemmas -/

theorem str_assoc (s t u : String) : s ++ t ++ u = s ++ (t ++ u) := by
  apply String.ext
  simp [String.data_append, List.append_assoc]

theorem str_empty_append (s : String) : "" ++ s = s := by
  apply String.ext
  simp [String.data_append]

theorem str_append_empty (s : String) : s ++ "" = s := by
  apply String.ext
  simp [String.data_append]

theorem concatStrs_append (a b : List String) :
    concatStrs (a ++ b) = concatStrs a ++ concatStrs b := by
  induction a with
  | nil => simp [concatStrs, str_empty_append]
  | cons x t ih => simp [concatStrs, ih, str_assoc]

theorem concatStrs_mem_split (x : String) (l : List String) (hx : x ∈ l) :
    ∃ p q, concatStrs l = p ++ x ++ q := by
  induction l with
  | nil => cases hx
  | cons a t ih =>
    rcases List.mem_cons.mp hx with h | h
    · exact ⟨"", concatStrs t, by rw [h, concatStrs, str_empty_append]⟩
    · obtain ⟨p, q, hpq⟩ := ih h
      exact ⟨a ++ p, q, by rw [concatStrs, hpq]; simp [str_assoc]⟩

theorem concatStrs_sandwich (m x a b : String) (l : List String) (hx : x ∈ l)
    (hsplit : x = a ++ m ++ b) : ∃ p q, concatStrs l = p ++ m ++ q := by
  obtain ⟨p, q, hpq⟩ := concatStrs_mem_split x l hx
  refine ⟨p ++ a, b ++ q, ?_⟩
  rw [hpq, hsplit]
  simp [str_assoc]

theorem concatStrs_pair_split (x y : String) (l1 l2 : List String) :
    ∃ p q, concatStrs (l1 ++ x :: y :: l2) = p ++ (x ++ y) ++ q := by
  refine ⟨concatStrs l1, concatStrs l2, ?_⟩
  rw [concatStrs_append]
  simp [concatStrs, str_assoc]

theorem absorb_left (p a m q s : String) (h : s = p ++ (a ++ m) ++ q) :
    ∃ p2 q2, s = p2 ++ m ++ q2 :=
  ⟨p ++ a, q, by rw [h]; simp [str_assoc]⟩

theorem enum_map_fst_comp {α β : Type} (l : List α) (g : Nat → β) :
    l.enum.map (fun pi => g pi.1) = (List.range l.length).map g := by
  rw [List.enum_eq_zip_range,
    show (fun pi : Nat × α => g pi.1) = g ∘ Prod.fst from rfl,
    ← List.map_map, List.map_fst_zip]
  simp

theorem enum_map_snd {α : Type} (l : List α) :
    l.enum.map (fun pi => pi.2) = l := by
  rw [List.enum_eq_zip_range,
    show (fun pi : Nat × α => pi.2) = Prod.snd from rfl, List.map_snd_zip]
  simp

theorem get_mem_enum {α : Type} (l : List α) (i : Nat) (h : i < l.length) :
    (i, l.get ⟨i, h⟩) ∈ l.enum := by
  have h2 : i < l.enum.length := by simpa using h
  rw [List.get_eq_getElem, ← List.getElem_enum l i h2]
  exact List.getElem_mem h2

theorem filterMap_some_comp {α β : Type} (f : α → β) (l : List α) :
    l.filterMap (fun a => some (f a)) = l.map f := by
  induction l with
  | nil => rfl
  | cons a t ih => simp [List.filterMap_cons, ih]

theorem filterMap_origin_comp (g : Nat → String) (params : List Span) :
    List.filterMap (Piece.origin ∘ fun pi : Nat × Span => (⟨g pi.1, some pi.2⟩ : Piece))
      params.enum = params := by
  rw [show (Piece.origin ∘ fun pi : Nat × Span => (⟨g pi.1, some pi.2⟩ : Piece))
      = fun pi : Nat × Span => some pi.2 from rfl]
  rw [filterMap_some_comp (fun pi : Nat × Span => pi.2)]
  exact enum_map_snd params

/-! ## Structural lemmas about the builder and the generator -/

theorem foldl_addModified {α : Type} (g : α → Piece) (l : List α) (b : PatchBuilder) :
    (List.foldl (fun acc x => PatchBuilder.addModified acc (g x)) b l).pieces =
      b.pieces ++ l.map g := by
  induction l generalizing b with
  | nil => simp
  | cons a t ih => rw [List.foldl_cons, ih]; simp [PatchBuilder.addModified]

theorem addDeserStmts_pieces (b : PatchBuilder) (params : List Span) :
    (addDeserStmts b params).pieces =
      b.pieces ++ params.enum.map (fun pi => ⟨deserStmtText pi.1, some pi.2⟩) := by
  rw [addDeserStmts, foldl_addModified]

theorem addCallArgs_pieces (b : PatchBuilder) (params : List Span) :
    (addCallArgs b params).pieces =
      b.pieces ++ params.enum.map (fun pi => ⟨argText pi.1, some pi.2⟩) := by
  rw [addCallArgs, foldl_addModified]

theorem generatedPieces_eq (item : FreeFunctionDecl) :
    (generatedPieces item).pieces = piecesList item := by
  rw [generatedPieces, piecesList]
  cases hr : item.retTyClause <;>
    simp [addDeserStmts_pieces, addCallArgs_pieces, PatchBuilder.addStr,
      PatchBuilder.addModified, PatchBuilder.new, hr]

theorem buildFrom_content (off : Nat) (ps : List Piece) :
    (buildFrom off ps).1 = concatStrs (ps.map Piece.text) := by
  induction ps generalizing off with
  | nil => rfl
  | cons p t ih => simp [buildFrom, concatStrs, ih]

theorem buildFrom_origins (off : Nat) (ps : List Piece) :
    ((buildFrom off ps).2).map CodeMapping.origin = ps.filterMap Piece.origin := by
  induction ps generalizing off with
  | nil => rfl
  | cons p t ih =>
    cases h : p.origin <;> simp [buildFrom, h, ih, List.filterMap_cons]

theorem generateCode_some (item : FreeFunctionDecl)
    (hattr : item.attrs.contains RUNNABLE_ATTR = true)
    (hgen : item.generics = []) :
    generateCode (ModuleItem.freeFunction item) =
      { code := some
          { name := "runnable",
            content := concatStrs ((piecesList item).map Piece.text),
            codeMappings := (buildFrom 0 (piecesList item)).2 },
        diagnostics := [],
        removeOriginalItem := false } := by
  rw [generateCode]
  simp only [hattr, hgen, List.isEmpty_nil, PatchBuilder.build, generatedPieces_eq,
    buildFrom_content]
  rfl

theorem piecesList_texts (item : FreeFunctionDecl) :
    (piecesList item).map Piece.text =
      [headerTextA, implicitPrecedenceAttrText, headerTextB, item.name, headerTextC]
      ++ (List.range item.params.length).map deserStmtText
      ++ [assertText, callHeadText, item.name, callOpenText]
      ++ (List.range item.params.length).map argText
      ++ [callCloseText, serializeText, rbraceText] := by
  simp only [piecesList, List.map_append, List.map_cons, List.map_nil, List.map_map]
  rw [show ((fun p : Piece => p.text) ∘ fun pi : Nat × Span => (⟨deserStmtText pi.1, some pi.2⟩ : Piece))
        = (fun pi : Nat × Span => deserStmtText pi.1) from rfl,
    show ((fun p : Piece => p.text) ∘ fun pi : Nat × Span => (⟨argText pi.1, some pi.2⟩ : Piece))
        = (fun pi : Nat × Span => argText pi.1) from rfl,
    enum_map_fst_comp, enum_map_fst_comp]

/-! ## Claim theorems -/

/-- Claim C2: for every function item carrying the `#[runnable]` attribute
whose generic-parameter list is non-empty, the generator produces no
generated unit, returns exactly one diagnostic (the
`GenericParamsNotAllowed` kind, identified by its message) anchored at the
generic-parameter-list span, and does not set the remove-original flag. -/
theorem generator_rejects_generic_params (item : FreeFunctionDecl)
    (hattr : item.attrs.contains RUNNABLE_ATTR = true)
    (hgen : item.generics ≠ []) :
    generateCode (ModuleItem.freeFunction item) =
      { code := none,
        diagnostics := [PluginDiagnostic.error item.genericsSpan
          "Runnable functions cannot have generic params."],
        removeOriginalItem := false } := by
  have hne : item.generics.isEmpty = false := by
    simpa [List.isEmpty_iff] using hgen
  rw [generateCode]
  simp [hattr, hne]
  exact fun hnot => absurd (by simpa using hattr) hnot

/-- Witness for C2 at the concrete generic function `bad<T>`. -/
theorem generator_rejects_generic_params_witness :
    exampleGenericFn.attrs.contains RUNNABLE_ATTR = true ∧
    exampleGenericFn.generics ≠ [] ∧
    generateCode (ModuleItem.freeFunction exampleGenericFn) =
      { code := none,
        diagnostics := [PluginDiagnostic.error exampleGenericFn.genericsSpan
          "Runnable functions cannot have generic params."],
        removeOriginalItem := false } :=
  ⟨by decide, by decide,
    generator_rejects_generic_params exampleGenericFn (by decide) (by decide)⟩

/-- Claim C6: the code generator is deterministic — two invocations on
identical input yield an identical generated unit (byte-identical content and
identical mapping sequence), identical diagnostics and an identical
remove-original flag.  The embedding, like the source, is a pure function of
the item syntax and the (read-only) metadata context. -/
theorem generator_deterministic (a b : ModuleItem) (h : a = b) :
    (generateCode a).code = (generateCode b).code ∧
    (generateCode a).diagnostics = (generateCode b).diagnostics ∧
    (generateCode a).removeOriginalItem = (generateCode b).removeOriginalItem := by
  subst h
  exact ⟨rfl, rfl, rfl⟩

/-- Witness for C6 at the concrete function `add`. -/
theorem generator_deterministic_witness :
    (ModuleItem.freeFunction exampleAddFn = ModuleItem.freeFunction exampleAddFn) ∧
    (generateCode (ModuleItem.freeFunction exampleAddFn)).code =
      (generateCode (ModuleItem.freeFunction exampleAddFn)).code ∧
    (generateCode (ModuleItem.freeFunction exampleAddFn)).diagnostics =
      (generateCode (ModuleItem.freeFunction exampleAddFn)).diagnostics ∧
    (generateCode (ModuleItem.freeFunction exampleAddFn)).removeOriginalItem =
      (generateCode (ModuleItem.freeFunction exampleAddFn)).removeOriginalItem :=
  ⟨rfl, generator_deterministic _ _ rfl⟩

/-- Claim C10: for every module whose free-function enumeration fails in the
semantic database, the validator returns an empty diagnostic sequence. -/
theorem analyzer_failed_module_no_diagnostics (m : ModuleSem)
    (h : m.freeFunctions = none) :
    analyzerDiagnostics m = [] := by
  rw [analyzerDiagnostics, h]

/-- Witness for C10 at the concrete failed module. -/
theorem analyzer_failed_module_no_diagnostics_witness :
    exampleFailedModule.freeFunctions = none ∧
    analyzerDiagnostics exampleFailedModule = [] :=
  ⟨rfl, analyzer_failed_module_no_diagnostics exampleFailedModule rfl⟩

/-- Claim C1: for every non-generic function item carrying `#[runnable]` with
N declared parameters, the generated unit's text is exactly: the header,
then N deserialization statements — one per original parameter in declaration
order, each binding a synthetic name with a distinct zero-based index
0..N-1 — then exactly one input-emptiness assertion, one call to the original
function passing all N synthetic bindings in the same order, and exactly one
serialization statement.  For N = 0 both `List.range 0` segments are empty:
zero deserialization statements and a call with no arguments. -/
theorem generator_body_structure (item : FreeFunctionDecl)
    (hattr : item.attrs.contains RUNNABLE_ATTR = true)
    (hgen : item.generics = []) :
    ∃ u, (generateCode (ModuleItem.freeFunction item)).code = some u ∧
      u.content = concatStrs
        ([headerTextA, implicitPrecedenceAttrText, headerTextB, item.name, headerTextC]
          ++ (List.range item.params.length).map deserStmtText
          ++ [assertText, callHeadText, item.name, callOpenText]
          ++ (List.range item.params.length).map argText
          ++ [callCloseText, serializeText, rbraceText]) := by
  refine ⟨{ name := "runnable",
            content := concatStrs ((piecesList item).map Piece.text),
            codeMappings := (buildFrom 0 (piecesList item)).2 }, ?_, ?_⟩
  · rw [generateCode_some item hattr hgen]
  · rw [piecesList_texts]

/-- Witness for C1 at the concrete two-parameter function `add`. -/
theorem generator_body_structure_witness :
    exampleAddFn.attrs.contains RUNNABLE_ATTR = true ∧
    exampleAddFn.generics = [] ∧
    ∃ u, (generateCode (ModuleItem.freeFunction exampleAddFn)).code = some u ∧
      u.content = concatStrs
        ([headerTextA, implicitPrecedenceAttrText, headerTextB, exampleAddFn.name, headerTextC]
          ++ (List.range exampleAddFn.params.length).map deserStmtText
          ++ [assertText, callHeadText, exampleAddFn.name, callOpenText]
          ++ (List.range exampleAddFn.params.length).map argText
          ++ [callCloseText, serializeText, rbraceText]) :=
  ⟨by decide, rfl, generator_body_structure exampleAddFn (by decide) rfl⟩

/-- Claim C3: for every candidate entry-point function whose resolved
parameter count is not exactly two, the validator emits exactly one
`InvalidParamCount` diagnostic anchored at the parameter-list node, zero
type/mutability diagnostics, and the return-type check still applies
independently (its diagnostic appears exactly when the return type is not
unit). -/
theorem analyzer_bad_param_count (f : FreeFunctionEntry) (signature : Signature)
    (hattr : f.attrs.contains RUNNABLE_RAW_ATTR = true)
    (hsig : f.signature = some signature)
    (hlen : signature.params.length ≠ 2) :
    checkFreeFunction f =
      (if signature.returnType ≠ unitTy then
        [PluginDiagnostic.error signature.retTySpan retMsg] else [])
      ++ [PluginDiagnostic.error signature.paramsSpan countMsg] ∧
    (checkFreeFunction f).filter isParamCountDiag =
      [PluginDiagnostic.error signature.paramsSpan countMsg] ∧
    (checkFreeFunction f).filter isParamTypeOrMutDiag = [] := by
  have hattr2 : RUNNABLE_RAW_ATTR ∈ f.attrs := by simpa using hattr
  have hck : checkFreeFunction f =
      (if signature.returnType ≠ unitTy then
        [PluginDiagnostic.error signature.retTySpan retMsg] else [])
      ++ [PluginDiagnostic.error signature.paramsSpan countMsg] := by
    rcases hp : signature.params with _ | ⟨a, _ | ⟨b, _ | ⟨c, t⟩⟩⟩
    case cons.cons.nil => exact absurd (by simp [hp]) hlen
    all_goals (rw [checkFreeFunction]; simp [hattr, hattr2, hsig, hp])
  refine ⟨hck, ?_, ?_⟩ <;>
    rw [hck] <;>
      by_cases hret : signature.returnType = unitTy <;>
        simp +decide [hret, isParamCountDiag, isParamTypeOrMutDiag,
          PluginDiagnostic.error, retMsg, countMsg, ty1Msg, mut1Msg, ty2Msg, mut2Msg]

/-- Witness for C3 at the concrete three-parameter candidate. -/
theorem analyzer_bad_param_count_witness :
    exampleEntryThreeParams.attrs.contains RUNNABLE_RAW_ATTR = true ∧
    exampleEntryThreeParams.signature = some exampleSigThreeParams ∧
    exampleSigThreeParams.params.length ≠ 2 ∧
    (checkFreeFunction exampleEntryThreeParams =
      (if exampleSigThreeParams.returnType ≠ unitTy then
        [PluginDiagnostic.error exampleSigThreeParams.retTySpan retMsg] else [])
      ++ [PluginDiagnostic.error exampleSigThreeParams.paramsSpan countMsg] ∧
    (checkFreeFunction exampleEntryThreeParams).filter isParamCountDiag =
      [PluginDiagnostic.error exampleSigThreeParams.paramsSpan countMsg] ∧
    (checkFreeFunction exampleEntryThreeParams).filter isParamTypeOrMutDiag = []) :=
  ⟨by decide, rfl, by decide,
    analyzer_bad_param_count exampleEntryThreeParams exampleSigThreeParams
      (by decide) rfl (by decide)⟩

/-- Claim C4: for a candidate entry-point function with exactly two resolved
parameters, the four type/mutability checks run independently; when the first
parameter has the wrong type and is also passed by mutable reference (and
everything else conforms), exactly two diagnostics are emitted —
`InvalidParamType` and `InvalidParamMutability` — both anchored at the first
parameter. -/
theorem analyzer_first_param_two_diags (f : FreeFunctionEntry)
    (signature : Signature) (input output : SemParam)
    (hattr : f.attrs.contains RUNNABLE_RAW_ATTR = true)
    (hsig : f.signature = some signature)
    (hp : signature.params = [input, output])
    (hret : signature.returnType = unitTy)
    (hty1 : input.ty ≠ spanFelt252Ty)
    (hmut1 : input.mutability = Mutability.Reference)
    (hty2 : output.ty = arrayFelt252Ty)
    (hmut2 : output.mutability = Mutability.Reference) :
    checkFreeFunction f =
      [PluginDiagnostic.error input.stablePtr ty1Msg,
       PluginDiagnostic.error input.stablePtr mut1Msg] := by
  have hattr2 : RUNNABLE_RAW_ATTR ∈ f.attrs := by simpa using hattr
  rw [checkFreeFunction]
  simp [hattr, hattr2, hsig, hp, hret, hty1, hmut1, hty2, hmut2]

/-- Witness for C4 at the concrete candidate whose first parameter is a
`ref` parameter of the wrong type. -/
theorem analyzer_first_param_two_diags_witness :
    exampleEntryBadFirst.attrs.contains RUNNABLE_RAW_ATTR = true ∧
    exampleEntryBadFirst.signature = some exampleSigBadFirst ∧
    exampleSigBadFirst.params = [exampleBadFirstInput, exampleBadFirstOutput] ∧
    checkFreeFunction exampleEntryBadFirst =
      [PluginDiagnostic.error exampleBadFirstInput.stablePtr ty1Msg,
       PluginDiagnostic.error exampleBadFirstInput.stablePtr mut1Msg] :=
  ⟨by decide, rfl, rfl,
    analyzer_first_param_two_diags exampleEntryBadFirst exampleSigBadFirst
      exampleBadFirstInput exampleBadFirstOutput
      (by decide) rfl rfl rfl (by decide) rfl rfl rfl⟩

/-- Claim C9: the first-parameter mutability check rejects only
pass-by-mutable-reference: for every two-parameter candidate, the
first-parameter mutability diagnostic is emitted exactly when the first
parameter is a `ref` parameter — in particular a first parameter declared
locally mutable (`mut`, as in every generator-produced wrapper) never
triggers it. -/
theorem analyzer_first_param_mut_only_ref (f : FreeFunctionEntry)
    (signature : Signature) (input output : SemParam)
    (hattr : f.attrs.contains RUNNABLE_RAW_ATTR = true)
    (hsig : f.signature = some signature)
    (hp : signature.params = [input, output]) :
    (checkFreeFunction f).countP isFirstParamMutDiag =
      (if input.mutability = Mutability.Reference then 1 else 0) := by
  have hattr2 : RUNNABLE_RAW_ATTR ∈ f.attrs := by simpa using hattr
  rw [checkFreeFunction]
  simp only [hattr, hattr2, hsig, hp]
  by_cases h1 : signature.returnType = unitTy <;>
    by_cases h2 : input.ty = spanFelt252Ty <;>
      by_cases h3 : input.mutability = Mutability.Reference <;>
        by_cases h4 : output.ty = arrayFelt252Ty <;>
          by_cases h5 : output.mutability = Mutability.Reference <;>
            simp +decide [h1, h2, h3, h4, h5, List.countP_append, List.countP_cons,
              isFirstParamMutDiag, PluginDiagnostic.error,
              retMsg, countMsg, ty1Msg, mut1Msg, ty2Msg, mut2Msg]

/-- Witness for C9 at the concrete candidate whose first parameter is
declared `mut`: no mutability diagnostic fires. -/
theorem analyzer_first_param_mut_only_ref_witness :
    exampleEntryMutFirst.attrs.contains RUNNABLE_RAW_ATTR = true ∧
    exampleSigMutFirst.params = [exampleMutFirstInput, exampleMutFirstOutput] ∧
    exampleMutFirstInput.mutability = Mutability.Mutable ∧
    (checkFreeFunction exampleEntryMutFirst).countP isFirstParamMutDiag =
      (if exampleMutFirstInput.mutability = Mutability.Reference then 1 else 0) :=
  ⟨by decide, rfl, rfl,
    analyzer_first_param_mut_only_ref exampleEntryMutFirst exampleSigMutFirst
      exampleMutFirstInput exampleMutFirstOutput (by decide) rfl rfl⟩

/-- Claim C5: in every generated unit, each per-parameter deserialization
statement is a piece whose source mapping is the corresponding original
parameter's span, and the serialization statement is a piece whose source
mapping is the original return-type clause when present and carries no
mapping otherwise; consequently the unit's origin sequence is: the name node,
the parameters in order (deserialization statements), the name node again,
the parameters in order again (call-argument lines), and finally the
return-type clause when present. -/
theorem generator_source_mappings (item : FreeFunctionDecl)
    (hattr : item.attrs.contains RUNNABLE_ATTR = true)
    (hgen : item.generics = []) :
    ∃ u, (generateCode (ModuleItem.freeFunction item)).code = some u ∧
      (∀ i (h : i < item.params.length),
        (⟨deserStmtText i, some (item.params.get ⟨i, h⟩)⟩ : Piece)
          ∈ (generatedPieces item).pieces) ∧
      ((⟨serializeText, item.retTyClause⟩ : Piece) ∈ (generatedPieces item).pieces) ∧
      u.codeMappings.map CodeMapping.origin =
        [item.nameSpan] ++ item.params ++ [item.nameSpan] ++ item.params
          ++ item.retTyClause.toList := by
  refine ⟨{ name := "runnable",
            content := concatStrs ((piecesList item).map Piece.text),
            codeMappings := (buildFrom 0 (piecesList item)).2 }, ?_, ?_, ?_, ?_⟩
  · rw [generateCode_some item hattr hgen]
  · intro i h
    rw [generatedPieces_eq, piecesList]
    have h1 : (i, item.params.get ⟨i, h⟩) ∈ item.params.enum := get_mem_enum _ _ h
    have h2 := List.mem_map_of_mem
      (fun pi : Nat × Span => (⟨deserStmtText pi.1, some pi.2⟩ : Piece)) h1
    simp only [List.append_assoc, List.mem_append]
    exact Or.inr (Or.inl h2)
  · rw [generatedPieces_eq, piecesList]
    simp
  · rw [buildFrom_origins, piecesList]
    cases hr : item.retTyClause <;>
      simp [hr, List.filterMap_append, List.filterMap_cons, filterMap_origin_comp]

/-- Witness for C5 at the concrete two-parameter function `add`. -/
theorem generator_source_mappings_witness :
    exampleAddFn.attrs.contains RUNNABLE_ATTR = true ∧
    exampleAddFn.generics = [] ∧
    ∃ u, (generateCode (ModuleItem.freeFunction exampleAddFn)).code = some u ∧
      (∀ i (h : i < exampleAddFn.params.length),
        (⟨deserStmtText i, some (exampleAddFn.params.get ⟨i, h⟩)⟩ : Piece)
          ∈ (generatedPieces exampleAddFn).pieces) ∧
      ((⟨serializeText, exampleAddFn.retTyClause⟩ : Piece)
        ∈ (generatedPieces exampleAddFn).pieces) ∧
      u.codeMappings.map CodeMapping.origin =
        [exampleAddFn.nameSpan] ++ exampleAddFn.params ++ [exampleAddFn.nameSpan]
          ++ exampleAddFn.params ++ exampleAddFn.retTyClause.toList :=
  ⟨by decide, rfl, generator_source_mappings exampleAddFn (by decide) rfl⟩

set_option maxRecDepth 8192 in
/-- Claim C7: every generated unit's wrapper is named by the fixed literal
prefix `__runnable_wrapper__` concatenated with the original function's name;
every synthetic parameter binding is named by the fixed literal prefix
`__param__runnable_wrapper__` concatenated with the parameter's zero-based
index; and the leading implicit-precedence attribute lists the same eight
built-in types, verbatim and in the same fixed order, in every generated
unit. -/
theorem generator_fixed_naming (item : FreeFunctionDecl)
    (hattr : item.attrs.contains RUNNABLE_ATTR = true)
    (hgen : item.generics = []) :
    ∃ u, (generateCode (ModuleItem.freeFunction item)).code = some u ∧
      (∃ p q, u.content = p ++ ("fn " ++ (RUNNABLE_PREFIX_STR ++ item.name)) ++ q) ∧
      (∀ i, i < item.params.length →
        ∃ p q, u.content = p ++ ("__param" ++ (RUNNABLE_PREFIX_STR ++ toString i)) ++ q) ∧
      (∃ p q, u.content = p ++ implicitPrecedenceAttrText ++ q) ∧
      RUNNABLE_PREFIX_STR = "__runnable_wrapper__" ∧
      implicitPrecedenceAttrText =
        "#[implicit_precedence(core::pedersen::Pedersen, core::RangeCheck, core::integer::Bitwise, core::ec::EcOp, core::poseidon::Poseidon, core::circuit::RangeCheck96, core::circuit::AddMod, core::circuit::MulMod)]" ∧
      IMPLICIT_PRECEDENCE =
        ["core::pedersen::Pedersen", "core::RangeCheck", "core::integer::Bitwise",
         "core::ec::EcOp", "core::poseidon::Poseidon", "core::circuit::RangeCheck96",
         "core::circuit::AddMod", "core::circuit::MulMod"] := by
  refine ⟨{ name := "runnable",
            content := concatStrs ((piecesList item).map Piece.text),
            codeMappings := (buildFrom 0 (piecesList item)).2 },
      ?_, ?_, ?_, ?_, rfl, by decide, rfl⟩
  · rw [generateCode_some item hattr hgen]
  · have hform : (piecesList item).map Piece.text =
        [headerTextA, implicitPrecedenceAttrText] ++ headerTextB :: item.name ::
          (headerTextC :: ((List.range item.params.length).map deserStmtText
            ++ [assertText, callHeadText, item.name, callOpenText]
            ++ (List.range item.params.length).map argText
            ++ [callCloseText, serializeText, rbraceText])) := by
      rw [piecesList_texts]; simp
    obtain ⟨p, q, hpq⟩ := concatStrs_pair_split headerTextB item.name
      [headerTextA, implicitPrecedenceAttrText]
      (headerTextC :: ((List.range item.params.length).map deserStmtText
        ++ [assertText, callHeadText, item.name, callOpenText]
        ++ (List.range item.params.length).map argText
        ++ [callCloseText, serializeText, rbraceText]))
    have hsplitB : headerTextB ++ item.name =
        "\n#[runnable_raw]\n" ++ ("fn " ++ (RUNNABLE_PREFIX_STR ++ item.name)) := by
      rw [show headerTextB = "\n#[runnable_raw]\n" ++ ("fn " ++ RUNNABLE_PREFIX_STR)
        from by decide]
      simp only [str_assoc]
    refine absorb_left p "\n#[runnable_raw]\n"
      ("fn " ++ (RUNNABLE_PREFIX_STR ++ item.name)) q _ ?_
    rw [hform, hpq, hsplitB]
  · intro i h
    have hmm : deserStmtText i ∈ (List.range item.params.length).map deserStmtText :=
      List.mem_map_of_mem _ (List.mem_range.mpr h)
    have hmem : deserStmtText i ∈ (piecesList item).map Piece.text := by
      rw [piecesList_texts]
      simp only [List.append_assoc, List.mem_append]
      exact Or.inr (Or.inl hmm)
    refine concatStrs_sandwich ("__param" ++ (RUNNABLE_PREFIX_STR ++ toString i))
      (deserStmtText i) "    let "
      (" = Serde::deserialize(ref input).expect(\x27Failed to deserialize param #"
        ++ (toString i ++ "\x27);\n"))
      _ hmem ?_
    rw [deserStmtText, show ("    let __param" : String) = "    let " ++ "__param"
      from by decide]
    simp only [str_assoc]
  · have hmem : implicitPrecedenceAttrText ∈ (piecesList item).map Piece.text := by
      rw [piecesList_texts]; simp
    exact concatStrs_mem_split _ _ hmem

/-- Witness for C7 at the concrete two-parameter function `add`. -/
theorem generator_fixed_naming_witness :
    exampleAddFn.attrs.contains RUNNABLE_ATTR = true ∧
    exampleAddFn.generics = [] ∧
    ∃ u, (generateCode (ModuleItem.freeFunction exampleAddFn)).code = some u ∧
      (∃ p q, u.content = p ++ ("fn " ++ (RUNNABLE_PREFIX_STR ++ exampleAddFn.name)) ++ q) ∧
      (∀ i, i < exampleAddFn.params.length →
        ∃ p q, u.content = p ++ ("__param" ++ (RUNNABLE_PREFIX_STR ++ toString i)) ++ q) ∧
      (∃ p q, u.content = p ++ implicitPrecedenceAttrText ++ q) ∧
      RUNNABLE_PREFIX_STR = "__runnable_wrapper__" ∧
      implicitPrecedenceAttrText =
        "#[implicit_precedence(core::pedersen::Pedersen, core::RangeCheck, core::integer::Bitwise, core::ec::EcOp, core::poseidon::Poseidon, core::circuit::RangeCheck96, core::circuit::AddMod, core::circuit::MulMod)]" ∧
      IMPLICIT_PRECEDENCE =
        ["core::pedersen::Pedersen", "core::RangeCheck", "core::integer::Bitwise",
         "core::ec::EcOp", "core::poseidon::Poseidon", "core::circuit::RangeCheck96",
         "core::circuit::AddMod", "core::circuit::MulMod"] :=
  ⟨by decide, rfl, generator_fixed_naming exampleAddFn (by decide) rfl⟩

set_option maxRecDepth 8192 in
/-- Claim C8: in every generated unit, the emitted call to the original
function binds its result to the synthetic value `__result` (taking a
snapshot, not user-visible) and passes the synthetic bindings in the same
order as the original parameters, after which the bound result is
serialized into the output parameter. -/
theorem generator_call_structure (item : FreeFunctionDecl)
    (hattr : item.attrs.contains RUNNABLE_ATTR = true)
    (hgen : item.generics = []) :
    ∃ u, (generateCode (ModuleItem.freeFunction item)).code = some u ∧
      ∃ p, u.content = p ++ ("    let __result = @" ++ (item.name ++ ("(\n"
        ++ (concatStrs ((List.range item.params.length).map argText)
        ++ ("    );\n" ++ ("    Serde::serialize(__result, ref output);\n"
        ++ "\x7d\n")))))) := by
  refine ⟨{ name := "runnable",
            content := concatStrs ((piecesList item).map Piece.text),
            codeMappings := (buildFrom 0 (piecesList item)).2 }, ?_, ?_⟩
  · rw [generateCode_some item hattr hgen]
  · refine ⟨concatStrs
      ([headerTextA, implicitPrecedenceAttrText, headerTextB, item.name, headerTextC]
        ++ (List.range item.params.length).map deserStmtText ++ [assertText]), ?_⟩
    rw [piecesList_texts]
    rw [show ([headerTextA, implicitPrecedenceAttrText, headerTextB, item.name, headerTextC]
        ++ (List.range item.params.length).map deserStmtText
        ++ [assertText, callHeadText, item.name, callOpenText]
        ++ (List.range item.params.length).map argText
        ++ [callCloseText, serializeText, rbraceText])
      = ([headerTextA, implicitPrecedenceAttrText, headerTextB, item.name, headerTextC]
        ++ (List.range item.params.length).map deserStmtText ++ [assertText])
        ++ (callHeadText :: item.name :: callOpenText ::
          ((List.range item.params.length).map argText
            ++ [callCloseText, serializeText, rbraceText])) from by simp]
    rw [concatStrs_append]
    simp only [concatStrs, concatStrs_append, callHeadText, callOpenText, callCloseText,
      serializeText, rbraceText]
    simp only [str_assoc, str_append_empty]

/-- Witness for C8 at the concrete two-parameter function `add`. -/
theorem generator_call_structure_witness :
    exampleAddFn.attrs.contains RUNNABLE_ATTR = true ∧
    exampleAddFn.generics = [] ∧
    ∃ u, (generateCode (ModuleItem.freeFunction exampleAddFn)).code = some u ∧
      ∃ p, u.content = p ++ ("    let __result = @" ++ (exampleAddFn.name ++ ("(\n"
        ++ (concatStrs ((List.range exampleAddFn.params.length).map argText)
        ++ ("    );\n" ++ ("    Serde::serialize(__result, ref output);\n"
        ++ "\x7d\n")))))) :=
  ⟨by decide, rfl, generator_call_structure exampleAddFn (by decide) rfl⟩

end Runnable
